import Mathlib

/-!
Verification of the core logic of `src/main.py` (Excel find-and-log batch
utility): column addressing, rule compilation, and the optimized sheet
matcher, shallowly embedded in Lean 4.

Modelling conventions:
* Excel cell values (as xlwings returns them) are `CellValue`: `None`,
  strings, numbers (integer-valued floats are modelled by their integer
  payload), booleans.  Python truthiness of a raw cell value is `truthy`,
  Python `str()` is `pyStr`.
* Python `str.strip()` / `str.lower()` / `str.upper()` are `pyStrip` /
  `pyLower` / `pyUpper`, written out over the character list of the string
  (they agree with Python on the ASCII data at issue).
* A sheet is its name, its used-range row count, a total cell grid
  (zero-based column index → zero-based row index → value), and a predicate
  saying whether the batched read of a given column raises.  A successful
  range read of rows 1..n of a column returns exactly n values, empty cells
  reading as `None`, which `readColD` reproduces.
* Python dicts are insertion-ordered association lists; a dict bucket built
  by appending in iteration order is recovered as an order-preserving
  `filter`.
-/

set_option autoImplicit false

namespace ExcelFindAndLog

/-- A spreadsheet cell value as delivered by the automation layer. -/
inductive CellValue where
  | vnone
  | vstr (s : String)
  | vnum (n : Int)
  | vbool (b : Bool)
deriving DecidableEq

/-- Python truthiness of a raw cell value (`if not search_val: continue`,
src/main.py:185): `None`, `""`, `0`/`0.0` and `False` are falsy. -/
def truthy : CellValue → Bool
  | .vnone => false
  | .vstr s => s != ""
  | .vnum n => n != 0
  | .vbool b => b

/-- Python `str()` on a cell value (integer-valued floats print as `n.0`). -/
def pyStr : CellValue → String
  | .vnone => "None"
  | .vstr s => s
  | .vnum n => toString n ++ ".0"
  | .vbool b => if b then "True" else "False"

/-- Python `str.strip()`: drop whitespace from both ends. -/
def pyStrip (s : String) : String :=
  String.mk (((s.data.dropWhile Char.isWhitespace).reverse.dropWhile
    Char.isWhitespace).reverse)

/-- Python `str.lower()` (per-character, as for the ASCII data here). -/
def pyLower (s : String) : String :=
  String.mk (s.data.map Char.toLower)

/-- Python `str.upper()` (per-character, as for the ASCII data here). -/
def pyUpper (s : String) : String :=
  String.mk (s.data.map Char.toUpper)

/-- `column_letter_to_index` (src/main.py:100-106): uppercase the label and
fold base-26 digits `A=1..Z=26`, then subtract one for a zero-based index. -/
def column_letter_to_index (col_letter : String) : Int :=
  ((pyUpper col_letter).data.foldl
    (fun result c => result * 26 + ((c.toNat : Int) - 65 + 1)) 0) - 1

/-- The `n`-th column label in spreadsheet order
`A, B, …, Z, AA, AB, …, ZZ` (defined for `n < 702`). -/
def labelOfIdx (n : Nat) : String :=
  if n < 26 then String.mk [Char.ofNat (65 + n)]
  else
    let m := n - 26
    String.mk [Char.ofNat (65 + m / 26), Char.ofNat (65 + m % 26)]

/-- A compiled search rule as stored in a rule group (src/main.py:444-448):
display name, configured search value (a configuration string; the source
applies `str()` to it before normalizing), and the columns to log. -/
structure Rule where
  rule_name : String
  search_value : String
  log_columns : List String
deriving DecidableEq

/-- Normalization applied to a configured search value
(src/main.py:173: `str(rule[...]).strip().lower()`). -/
def normalizeConfigured (s : String) : String :=
  pyLower (pyStrip s)

/-- One match record (src/main.py:203-208):
`(rule_name, sheet_name, search_val_str, logged_values)`, with the logged
values an insertion-ordered dict keyed by log-column label. -/
structure Match where
  rule_name : String
  sheet_name : String
  matched_value : String
  logged : List (String × String)
deriving DecidableEq

/-- A sheet as the matcher observes it: name, used-range row count, the cell
grid (zero-based column index → zero-based row index → raw value; absent
cells are `CellValue.vnone`), and which batched column reads raise. -/
structure Sheet where
  name : String
  rows : Nat
  data : Int → Nat → CellValue
  readFail : Int → Bool

/-- The batched read `sheet.range((1, c+1), (n, c+1)).value`
(src/main.py:152-157, 163-166): `none` when the read raises, otherwise
exactly the first `n` cells of column `c` (a single-cell result is already
normalized to a one-element list by the source). -/
def readColD (s : Sheet) (c : Int) (n : Nat) : Option (List CellValue) :=
  if s.readFail c then none
  else some ((List.range n).map (fun i => s.data c i))

/-- The union of the log columns of a rule group (src/main.py:147-149 builds
it as a Python set; only membership and the per-label data matter, so the
list with duplicates is an equivalent model). -/
def allLogColumns (rule_group : List Rule) : List String :=
  rule_group.flatMap (fun r => r.log_columns)

/-- The per-row body of the single pass (src/main.py:182-208): skip falsy
cells, trim/lower the cell text, collect the matching rules of the group
(the dict bucket `search_lookup[...]` holds exactly the group's rules whose
normalized search value equals the key, in group order, src/main.py:171-179),
and emit one match record per matching rule, logging that rule's columns
(empty cells log as `""`). -/
def rowMatches (sheet_name : String) (rule_group : List Rule)
    (search_val : CellValue) (logAt : String → CellValue) : List Match :=
  if truthy search_val then
    let search_val_str := pyStrip (pyStr search_val)
    let search_val_normalized := pyLower search_val_str
    (rule_group.filter
      (fun r => normalizeConfigured r.search_value == search_val_normalized)).map
      (fun r =>
        { rule_name := r.rule_name
          sheet_name := sheet_name
          matched_value := search_val_str
          logged := r.log_columns.map (fun log_col =>
            (log_col,
              let col_val := logAt log_col
              if truthy col_val then pyStrip (pyStr col_val) else "")) })
  else []

/-- Processing of one search-column group (the body of the `try` at
src/main.py:142-208): read the search column, read every needed log column,
then a single pass over the rows.  Any failing read raises, is caught at
src/main.py:210-214, and yields no matches for this group. -/
def processGroup (sheet_name : String) (read : Int → Option (List CellValue))
    (search_col : String) (rule_group : List Rule) : List Match :=
  match read (column_letter_to_index search_col) with
  | none => []
  | some search_values =>
    if (allLogColumns rule_group).all
        (fun log_col => (read (column_letter_to_index log_col)).isSome) then
      let log_column_data := fun log_col =>
        (read (column_letter_to_index log_col)).getD []
      (List.range search_values.length).flatMap (fun row_idx =>
        rowMatches sheet_name rule_group
          (search_values.getD row_idx CellValue.vnone)
          (fun log_col => (log_column_data log_col).getD row_idx CellValue.vnone))
    else []

/-- `search_sheet_optimized` (src/main.py:108-222): truncate to
`min(rows, max_rows)` rows and process the search-column groups in order,
concatenating their matches.  `rules_by_search_column` is the
insertion-ordered dict `{search_col: [rules]}`. -/
def search_sheet_optimized (sheet : Sheet)
    (rules_by_search_column : List (String × List Rule))
    (max_rows : Nat) : List Match :=
  rules_by_search_column.flatMap (fun g =>
    processGroup sheet.name
      (fun c => readColD sheet c (min sheet.rows max_rows)) g.1 g.2)

/-- A raw configured rule record (one entry of `search_rules` in the JSON
configuration), with the optional fields optional.  `rule.get('enabled', True)`
is `enabled.getD true`; `rule.get('log_columns', [])` is the `log_columns`
list; a missing `name` is `none`. -/
structure RawRule where
  name : Option String
  sheet_name : Option String
  search_column : Option String
  search_value : String
  log_columns : List String
  enabled : Option Bool
deriving DecidableEq

/-- The compiled structure `{ sheet_name: { search_column: [rules] } }`
(src/main.py:415), with both Python dicts as insertion-ordered association
lists.  The search-column key is `rule.get('search_column')`, which may be
absent (`none`). -/
abbrev SheetRules : Type :=
  List (String × List (Option String × List Rule))

/-- Append a rule to the bucket of `search_col` in an inner dict, creating
the bucket at the end on first insertion (src/main.py:440-448). -/
def insertGroup : List (Option String × List Rule) → Option String → Rule →
    List (Option String × List Rule)
  | [], search_col, r => [(search_col, [r])]
  | (c, rs) :: t, search_col, r =>
    if c = search_col then (c, rs ++ [r]) :: t
    else (c, rs) :: insertGroup t search_col r

/-- Append a rule under `(sheet_name, search_col)` in the nested dict,
creating missing keys at the end on first insertion (src/main.py:435-448). -/
def insertRule : SheetRules → String → Option String → Rule → SheetRules
  | [], sheet_name, search_col, r => [(sheet_name, insertGroup [] search_col r)]
  | (n, m) :: t, sheet_name, search_col, r =>
    if n = sheet_name then (n, insertGroup m search_col r) :: t
    else (n, m) :: insertRule t sheet_name search_col r

/-- One iteration of the rule-building loop (src/main.py:420-449): skip a
rule whose `enabled` is explicitly falsy, skip a rule with a falsy
`sheet_name` (absent or empty), name the rule `name` or `"Rule {idx+1}"`
with `idx` its position in the full configured list, and append it under
its sheet and search column. -/
def compileStep (idx : Nat) (rule : RawRule) (acc : SheetRules) : SheetRules :=
  if !(rule.enabled.getD true) then acc
  else
    match rule.sheet_name with
    | none => acc
    | some sheet_name =>
      if sheet_name = "" then acc
      else
        insertRule acc sheet_name rule.search_column
          { rule_name := rule.name.getD ("Rule " ++ toString (idx + 1))
            search_value := rule.search_value
            log_columns := rule.log_columns }

/-- The rule-building loop of `main` over `enumerate(search_rules_config)`
(src/main.py:419-449). -/
def compileAux : Nat → List RawRule → SheetRules → SheetRules
  | _, [], acc => acc
  | idx, r :: rs, acc => compileAux (idx + 1) rs (compileStep idx r acc)

/-- `sheet_rules` as built by `main` from the configured rule list
(src/main.py:414-449). -/
def build_sheet_rules (search_rules_config : List RawRule) : SheetRules :=
  compileAux 0 search_rules_config []

/-- Dictionary key lookup on an insertion-ordered association list. -/
def lookupKey {α β : Type} [DecidableEq α] : List (α × β) → α → Option β
  | [], _ => none
  | (k, v) :: t, a => if k = a then some v else lookupKey t a

/-- The group stored under `(sheet_name, search_col)` in the compiled
structure (empty when either key is absent). -/
def groupOf (m : SheetRules) (sheet_name : String) (search_col : Option String) :
    List Rule :=
  (lookupKey ((lookupKey m sheet_name).getD []) search_col).getD []

/-- Modelled from the spec: a configured rule is kept when it is not
explicitly disabled and has a non-empty sheet name ("Skip any rule
explicitly disabled", "Skip rules missing a sheet name"). -/
def keptRule (r : RawRule) : Bool :=
  r.enabled.getD true && (r.sheet_name.getD "") != ""

/-- Modelled from the spec: the display-named rule for position `idx`
("Assign each rule a display name (explicit or \"Rule \x7bposition\x7d\")"). -/
def mkRule (idx : Nat) (r : RawRule) : Rule :=
  { rule_name := r.name.getD ("Rule " ++ toString (idx + 1))
    search_value := r.search_value
    log_columns := r.log_columns }

/-- Modelled from the spec: the group a compiled structure should hold under
`(sheet_name, search_col)` — the kept rules with that sheet and search
column, in configuration order, display-named by position ("Index rules by
sheet name, then by the … search column they operate on, preserving
insertion order within each group"). -/
def specGroup (idx : Nat) (sheet_name : String) (search_col : Option String) :
    List RawRule → List Rule
  | [] => []
  | r :: rs =>
    (if keptRule r ∧ r.sheet_name = some sheet_name ∧ r.search_column = search_col
      then [mkRule idx r] else []) ++ specGroup (idx + 1) sheet_name search_col rs

/-- Observable steps of `main` (src/main.py:368-528) in program order. -/
inductive MainEvent where
  | fatalBadFolder
  | noExcelFiles
  | fatalNoRules
  | excelStarted
  | fileProcessed (filename : String)
deriving DecidableEq

/-- The control-flow skeleton of `main` (src/main.py:368-528) as the list of
observable events: directory validation (src/main.py:395-397), the empty
file-list early return (src/main.py:410-412), rule building, the
no-enabled-rules fatal check (src/main.py:451-453), and only then Excel
startup (src/main.py:475) and the per-file loop (src/main.py:488-493). -/
def main_trace (folder_ok : Bool) (excel_files : List String)
    (search_rules_config : List RawRule) : List MainEvent :=
  if !folder_ok then [MainEvent.fatalBadFolder]
  else if excel_files = [] then [MainEvent.noExcelFiles]
  else if build_sheet_rules search_rules_config = [] then [MainEvent.fatalNoRules]
  else MainEvent.excelStarted :: excel_files.map MainEvent.fileProcessed

/-! Concrete instances used by counterexamples and witnesses. -/

/-- A one-row sheet whose every cell holds the whitespace-only string
`" "`, with all reads succeeding. -/
def whitespaceSheet : Sheet :=
  { name := "S", rows := 1, data := fun _ _ => CellValue.vstr " ",
    readFail := fun _ => false }

/-- A single rule group on column `A` whose one rule has the empty string
as its configured search value. -/
def emptyValueRules : List (String × List Rule) :=
  [("A", [{ rule_name := "R", search_value := "", log_columns := [] }])]

/-- A 20-row sheet whose rows 0–9 hold `"x"` and rows 10–19 hold the
matching value `"findme"`. -/
def deepSheetA : Sheet :=
  { name := "S", rows := 20,
    data := fun _ i => if i < 10 then CellValue.vstr "x" else CellValue.vstr "findme",
    readFail := fun _ => false }

/-- Like `deepSheetA` but rows 10–19 hold `"other"` instead. -/
def deepSheetB : Sheet :=
  { name := "S", rows := 20,
    data := fun _ i => if i < 10 then CellValue.vstr "x" else CellValue.vstr "other",
    readFail := fun _ => false }

/-- A rule group looking for `"findme"` in column `A`. -/
def findmeRules : List (String × List Rule) :=
  [("A", [{ rule_name := "R", search_value := "findme", log_columns := [] }])]

/-- A three-row sheet of `"v"` cells on which reading column index 1
(column `B`) fails. -/
def failBSheet : Sheet :=
  { name := "S", rows := 3, data := fun _ _ => CellValue.vstr "v",
    readFail := fun c => c = 1 }

/-- Two single-rule groups, on search columns `A` and `B`. -/
def twoGroupRules : List (String × List Rule) :=
  [("A", [{ rule_name := "R1", search_value := "v", log_columns := [] }]),
   ("B", [{ rule_name := "R2", search_value := "v", log_columns := [] }])]

/-- A log-column data function on which column `C` is empty and every other
column holds `"a"`. -/
def emptyCLogAt : String → CellValue :=
  fun log_col => if log_col = "C" then CellValue.vnone else CellValue.vstr "a"

/-- A rule logging columns `A` and `C`. -/
def logACRule : Rule :=
  { rule_name := "R", search_value := "v", log_columns := ["A", "C"] }

/-- The match `logACRule` produces on a `"v"`-cell row read with
`emptyCLogAt`. -/
def logACMatch : Match :=
  { rule_name := "R", sheet_name := "S", matched_value := "v",
    logged := [("A", "a"), ("C", "")] }

/-- A configured rule that is explicitly disabled. -/
def disabledRawRule : RawRule :=
  { name := none, sheet_name := some "S", search_column := some "A",
    search_value := "v", log_columns := [], enabled := some false }

/-! Helper lemmas. -/

lemma readColD_congr (s1 s2 : Sheet) (c : Int) (n : Nat)
    (hfail : s1.readFail c = s2.readFail c)
    (hdata : ∀ i, i < n → s1.data c i = s2.data c i) :
    readColD s1 c n = readColD s2 c n := by
  unfold readColD
  rw [hfail]
  split
  · rfl
  · exact congrArg some (List.map_congr_left (fun i hi =>
      hdata i (List.mem_range.mp hi)))

/-- The matcher's output is determined by the sheet name, the row count,
which reads fail, and the cell values in the first `min rows max_rows`
rows. -/
lemma search_sheet_optimized_congr (s1 s2 : Sheet)
    (rules : List (String × List Rule)) (max_rows : Nat)
    (hname : s1.name = s2.name) (hrows : s1.rows = s2.rows)
    (hfail : ∀ c, s1.readFail c = s2.readFail c)
    (hdata : ∀ c i, i < min s1.rows max_rows → s1.data c i = s2.data c i) :
    search_sheet_optimized s1 rules max_rows =
      search_sheet_optimized s2 rules max_rows := by
  unfold search_sheet_optimized
  have hread : (fun c => readColD s1 c (min s1.rows max_rows)) =
      (fun c => readColD s2 c (min s2.rows max_rows)) := by
    funext c
    rw [← hrows]
    exact readColD_congr s1 s2 c _ (hfail c) (fun i hi => hdata c i hi)
  rw [hname, hread]

lemma flatMap_eraseIdx_of_eq_nil {α β : Type} (l : List α) (j : Nat)
    (hj : j < l.length) (f : α → List β) (h : f (l.get ⟨j, hj⟩) = []) :
    l.flatMap f = (l.eraseIdx j).flatMap f := by
  induction l generalizing j with
  | nil => exact absurd hj (Nat.not_lt_zero j)
  | cons a t ih =>
    cases j with
    | zero => simp_all
    | succ j =>
      have hj' : j < t.length := Nat.lt_of_succ_lt_succ hj
      simp only [List.flatMap_cons, List.eraseIdx_cons_succ]
      rw [ih j hj' h]

/-! Theorems settling the claims. -/

set_option maxRecDepth 100000 in
/-- C2: `column_letter_to_index` maps a 1-or-2-letter label to its
zero-based offset by base-26 positional arithmetic: `index "A" = 0`,
`index "Z" = 25`, `index "AA" = 26`, and over the 702 labels `A..ZZ` in
spreadsheet order (enumerated by `labelOfIdx`) the index is strictly
increasing. -/
theorem c2_column_letter_to_index_base26 :
    column_letter_to_index "A" = 0 ∧ column_letter_to_index "Z" = 25 ∧
    column_letter_to_index "AA" = 26 ∧
    ∀ m n : Nat, m < n → n < 702 →
      column_letter_to_index (labelOfIdx m) < column_letter_to_index (labelOfIdx n) := by
  refine ⟨by decide, by decide, by decide, ?_⟩
  have h : ∀ k, k < 702 → column_letter_to_index (labelOfIdx k) = (k : Int) := by decide
  intro m n hmn hn
  rw [h m (Nat.lt_trans hmn hn), h n hn]
  exact_mod_cast hmn

/-- Witness for C2 at the pair `Z < AA`. -/
theorem c2_column_letter_to_index_base26_witness :
    column_letter_to_index (labelOfIdx 25) < column_letter_to_index (labelOfIdx 26) :=
  c2_column_letter_to_index_base26.2.2.2 25 26 (by decide) (by decide)

/-- C10: a row whose raw primary-column cell is the number 0 or the boolean
False is skipped by the truthiness test before any normalization, so it
never produces a match, whatever the rule group (including rules whose
search value normalizes to "0" or "false"). -/
theorem c10_falsy_primary_cell_never_matches (sheet_name : String)
    (rule_group : List Rule) (logAt : String → CellValue) :
    rowMatches sheet_name rule_group (CellValue.vnum 0) logAt = [] ∧
    rowMatches sheet_name rule_group (CellValue.vbool false) logAt = [] :=
  ⟨rfl, rfl⟩

/-- C1 counterexample: on a sheet whose primary-column cell is the
whitespace-only string `" "` (truthy, but stripping it yields `""`), a rule
configured with the empty search value does produce a match record, so a
whitespace-only row is not matchless for every configured rule. -/
theorem c1_counterexample :
    (truthy (whitespaceSheet.data (column_letter_to_index "A") 0) = true ∧
      pyStrip (pyStr (whitespaceSheet.data (column_letter_to_index "A") 0)) = "") ∧
    search_sheet_optimized whitespaceSheet emptyValueRules 5 ≠ [] := by
  decide

/-- C1 as amended: provided no rule of the group has a search value that
normalizes (strip + lower) to the empty string, a row whose primary-column
cell is empty (falsy) or whitespace-only (strips to `""`) produces no match
record, regardless of any other column's content. -/
theorem c1_empty_or_whitespace_row_no_match (sheet_name : String)
    (rule_group : List Rule) (v : CellValue) (logAt : String → CellValue)
    (hv : truthy v = false ∨ pyStrip (pyStr v) = "")
    (hrules : ∀ r ∈ rule_group, normalizeConfigured r.search_value ≠ "") :
    rowMatches sheet_name rule_group v logAt = [] := by
  unfold rowMatches
  rcases hv with hv | hv
  · simp [hv]
  · split
    · have hemp : pyLower "" = "" := by decide
      have hfil : rule_group.filter
          (fun r => normalizeConfigured r.search_value == pyLower "") = [] := by
        rw [List.filter_eq_nil_iff]
        intro r hr
        simpa [hemp] using hrules r hr
      simp only [hv, hfil, List.map_nil]
    · rfl

/-- Witness for C1 (amended) on a whitespace-only cell and a rule whose
search value is non-empty. -/
theorem c1_empty_or_whitespace_row_no_match_witness :
    rowMatches "S" [{ rule_name := "R", search_value := "x", log_columns := [] }]
      (CellValue.vstr "  ") (fun _ => CellValue.vnone) = [] :=
  c1_empty_or_whitespace_row_no_match "S"
    [{ rule_name := "R", search_value := "x", log_columns := [] }]
    (CellValue.vstr "  ") (fun _ => CellValue.vnone)
    (Or.inr (by decide)) (by decide)

/-- C3: the matcher reads only the first `min(sheet rows, max_rows)` rows of
each column, so its output is unchanged by the content of every row beyond
that bound: two sheets agreeing there (same name, row count and read
behavior) produce identical match lists. -/
theorem c3_rows_beyond_bound_never_inspected (s1 s2 : Sheet)
    (rules : List (String × List Rule)) (max_rows : Nat)
    (hname : s1.name = s2.name) (hrows : s1.rows = s2.rows)
    (hfail : ∀ c, s1.readFail c = s2.readFail c)
    (hdata : ∀ c i, i < min s1.rows max_rows → s1.data c i = s2.data c i) :
    search_sheet_optimized s1 rules max_rows =
      search_sheet_optimized s2 rules max_rows :=
  search_sheet_optimized_congr s1 s2 rules max_rows hname hrows hfail hdata

/-- Witness for C3: with `max_rows = 10` on 20-row sheets that differ only
in rows 10–19 (one of them holding the matching value there), the outputs
coincide. -/
theorem c3_rows_beyond_bound_never_inspected_witness :
    search_sheet_optimized deepSheetA findmeRules 10 =
      search_sheet_optimized deepSheetB findmeRules 10 :=
  c3_rows_beyond_bound_never_inspected deepSheetA deepSheetB findmeRules 10
    rfl rfl (fun _ => rfl)
    (by
      intro c i h
      have h10 : i < 10 := Nat.lt_of_lt_of_le h (Nat.min_le_right _ _)
      simp [deepSheetA, deepSheetB, h10])

/-- C8: the matcher is deterministic and idempotent — its output is a
function of the observable sheet (name, row count, read behavior, cell
grid), the rule groups and the row limit, so two runs over the same static
column data yield the same ordered match list. -/
theorem c8_matcher_deterministic (s1 s2 : Sheet)
    (rules : List (String × List Rule)) (max_rows : Nat)
    (hname : s1.name = s2.name) (hrows : s1.rows = s2.rows)
    (hfail : ∀ c, s1.readFail c = s2.readFail c)
    (hdata : ∀ c i, s1.data c i = s2.data c i) :
    search_sheet_optimized s1 rules max_rows =
      search_sheet_optimized s2 rules max_rows :=
  search_sheet_optimized_congr s1 s2 rules max_rows hname hrows hfail
    (fun c i _ => hdata c i)

/-- Witness for C8: two separately constructed copies of the same sheet data
give the same match list. -/
theorem c8_matcher_deterministic_witness :
    search_sheet_optimized deepSheetA findmeRules 25 =
      search_sheet_optimized
        { name := "S", rows := 20,
          data := fun _ i =>
            if i < 10 then CellValue.vstr "x" else CellValue.vstr "findme",
          readFail := fun _ => false }
        findmeRules 25 :=
  c8_matcher_deterministic _ _ findmeRules 25 rfl rfl (fun _ => rfl)
    (fun _ _ => rfl)

/-- C4: when reading the search column of one group fails, only that group
is skipped: the sheet's output equals the output on the rule set with that
group removed — the group's own matches are lost while every other group's
contribution is computed unchanged, and no error escapes (the function is
total). -/
theorem c4_failing_group_skipped (s : Sheet)
    (rules : List (String × List Rule)) (max_rows : Nat) (j : Nat)
    (hj : j < rules.length)
    (hfail : s.readFail (column_letter_to_index (rules.get ⟨j, hj⟩).1) = true) :
    search_sheet_optimized s rules max_rows =
      search_sheet_optimized s (rules.eraseIdx j) max_rows := by
  unfold search_sheet_optimized
  refine flatMap_eraseIdx_of_eq_nil rules j hj _ ?_
  have hfail' : s.readFail (column_letter_to_index rules[j].1) = true := hfail
  simp [processGroup, readColD, hfail']

/-- Witness for C4: a sheet on which column `B` cannot be read, with one
group on `A` and one on `B`; the output equals that of the rule set without
the `B` group. -/
theorem c4_failing_group_skipped_witness :
    search_sheet_optimized failBSheet twoGroupRules 5 =
      search_sheet_optimized failBSheet (twoGroupRules.eraseIdx 1) 5 :=
  c4_failing_group_skipped failBSheet twoGroupRules 5 1 (by decide) (by decide)

/-- C6: matching trims surrounding whitespace and lowercases on both sides —
a truthy string cell whose stripped, lowercased text equals the rule's
stripped, lowercased search value produces exactly the match record for that
rule (recording the stripped cell text). -/
theorem c6_match_case_insensitive_trimmed (sheet_name : String) (r : Rule)
    (s : String) (logAt : String → CellValue)
    (hne : s ≠ "")
    (hmatch : pyLower (pyStrip s) = normalizeConfigured r.search_value) :
    rowMatches sheet_name [r] (CellValue.vstr s) logAt =
      [{ rule_name := r.rule_name, sheet_name := sheet_name,
         matched_value := pyStrip s,
         logged := r.log_columns.map (fun log_col =>
           (log_col,
             if truthy (logAt log_col) then pyStrip (pyStr (logAt log_col))
             else "")) }] := by
  have ht : truthy (CellValue.vstr s) = true := by
    simp [truthy, hne]
  simp [rowMatches, ht, pyStr, List.filter, hmatch.symm]

/-- Witness for C6: the cell `"Active "` (trailing space) matches the
configured value `"active"`. -/
theorem c6_match_case_insensitive_trimmed_witness :
    rowMatches "Orders"
      [{ rule_name := "R1", search_value := "active", log_columns := [] }]
      (CellValue.vstr "Active ") (fun _ => CellValue.vnone) =
      [{ rule_name := "R1", sheet_name := "Orders", matched_value := "Active",
         logged := [] }] :=
  (c6_match_case_insensitive_trimmed "Orders"
    { rule_name := "R1", search_value := "active", log_columns := [] }
    "Active " (fun _ => CellValue.vnone) (by decide) (by decide)).trans
    (by decide)

/-- C7: every match record carries exactly its rule's configured log columns
as keys, in order, and the value recorded under a key is the stripped cell
text of that column, the empty string for a falsy (e.g. empty) cell — a key
is never omitted. -/
theorem c7_log_columns_always_recorded (sheet_name : String)
    (rule_group : List Rule) (v : CellValue) (logAt : String → CellValue)
    (m : Match) (hm : m ∈ rowMatches sheet_name rule_group v logAt) :
    ∃ r ∈ rule_group,
      m.logged.map Prod.fst = r.log_columns ∧
      ∀ p ∈ m.logged,
        p.2 = if truthy (logAt p.1) then pyStrip (pyStr (logAt p.1)) else "" := by
  unfold rowMatches at hm
  split at hm
  · obtain ⟨r, hr, rfl⟩ := List.mem_map.mp hm
    refine ⟨r, List.mem_of_mem_filter hr, ?_, ?_⟩
    · simp only [List.map_map]
      show List.map (fun log_col : String => log_col) r.log_columns = r.log_columns
      simp
    · intro p hp
      obtain ⟨log_col, _, rfl⟩ := List.mem_map.mp hp
      rfl
  · exact absurd hm (List.not_mem_nil m)

/-- Witness for C7: a rule logging `["A", "C"]` matching a row where column
`C` is empty records the key `C` with value `""`. -/
theorem c7_log_columns_always_recorded_witness :
    ∃ r ∈ [logACRule],
      logACMatch.logged.map Prod.fst = r.log_columns ∧
      ∀ p ∈ logACMatch.logged,
        p.2 = if truthy (emptyCLogAt p.1) then pyStrip (pyStr (emptyCLogAt p.1))
          else "" :=
  c7_log_columns_always_recorded "S" [logACRule] (CellValue.vstr "v")
    emptyCLogAt logACMatch (by decide)

lemma lookupKey_insertGroup (g : List (Option String × List Rule))
    (sc sc' : Option String) (r : Rule) :
    lookupKey (insertGroup g sc r) sc' =
      if sc = sc' then some (((lookupKey g sc').getD []) ++ [r])
      else lookupKey g sc' := by
  induction g with
  | nil => by_cases h : sc = sc' <;> simp [insertGroup, lookupKey, h]
  | cons hd t ih =>
    obtain ⟨c, rs⟩ := hd
    by_cases h1 : c = sc
    · subst h1
      by_cases h2 : c = sc' <;> simp [insertGroup, lookupKey, h2]
    · have hns : ¬sc = c := fun h => h1 h.symm
      by_cases h2 : c = sc'
      · subst h2
        simp [insertGroup, lookupKey, h1, hns]
      · simp [insertGroup, lookupKey, h1, h2, ih]

lemma groupOf_insertRule (m : SheetRules) (sn : String) (sc : Option String)
    (r : Rule) (sn' : String) (sc' : Option String) :
    groupOf (insertRule m sn sc r) sn' sc' =
      if sn = sn' ∧ sc = sc' then groupOf m sn' sc' ++ [r]
      else groupOf m sn' sc' := by
  induction m with
  | nil =>
    by_cases h1 : sn = sn' <;> by_cases h2 : sc = sc' <;>
      simp [insertRule, groupOf, lookupKey, insertGroup, h1, h2]
  | cons hd t ih =>
    obtain ⟨n, g⟩ := hd
    by_cases h1 : n = sn
    · subst h1
      by_cases h2 : n = sn'
      · subst h2
        simp only [insertRule, groupOf, lookupKey, if_pos rfl, and_true,
          eq_self_iff_true, true_and, lookupKey_insertGroup, Option.getD_some]
        by_cases h3 : sc = sc' <;> simp [lookupKey_insertGroup, h3]
      · simp [insertRule, groupOf, lookupKey, h2]
    · have hns : ¬sn = n := fun h => h1 h.symm
      by_cases h2 : n = sn'
      · subst h2
        simp [insertRule, groupOf, lookupKey, h1, hns]
      · simpa [insertRule, groupOf, lookupKey, h1, h2] using ih

lemma groupOf_compileStep (idx : Nat) (r : RawRule) (acc : SheetRules)
    (sn : String) (sc : Option String) :
    groupOf (compileStep idx r acc) sn sc =
      groupOf acc sn sc ++
        (if keptRule r ∧ r.sheet_name = some sn ∧ r.search_column = sc
          then [mkRule idx r] else []) := by
  unfold compileStep keptRule
  cases henabled : r.enabled.getD true
  · simp [henabled]
  · cases hsheet : r.sheet_name with
    | none => simp [hsheet]
    | some s =>
      by_cases hs : s = ""
      · simp [hsheet, hs]
      · simp only [hsheet, Bool.not_true, Bool.false_eq_true, if_false,
          if_neg hs, groupOf_insertRule, Option.getD_some]
        by_cases hcond : s = sn ∧ r.search_column = sc
        · rw [if_pos hcond, if_pos ⟨by simp [hs], by rw [hcond.1], hcond.2⟩]
          rfl
        · rw [if_neg hcond, if_neg ?_, List.append_nil]
          rintro ⟨-, heq, hcol⟩
          exact hcond ⟨Option.some.inj heq, hcol⟩

lemma groupOf_compileAux (rs : List RawRule) (idx : Nat) (acc : SheetRules)
    (sn : String) (sc : Option String) :
    groupOf (compileAux idx rs acc) sn sc =
      groupOf acc sn sc ++ specGroup idx sn sc rs := by
  induction rs generalizing idx acc with
  | nil => simp [compileAux, specGroup]
  | cons r t ih =>
    show groupOf (compileAux (idx + 1) t (compileStep idx r acc)) sn sc = _
    rw [ih, groupOf_compileStep]
    simp [specGroup, List.append_assoc]

/-- C5: the rule compiler refines its specification — for every configured
rule list and every `(sheet, search column)` key, the compiled group is
exactly the kept rules (not explicitly disabled, non-empty sheet name) with
that sheet and search column, in configuration order, each display-named by
its explicit name or `"Rule "` followed by its 1-based position in the full
configured list. -/
theorem c5_rule_grouping_refines_spec (search_rules_config : List RawRule)
    (sheet_name : String) (search_col : Option String) :
    groupOf (build_sheet_rules search_rules_config) sheet_name search_col =
      specGroup 0 sheet_name search_col search_rules_config := by
  unfold build_sheet_rules
  rw [groupOf_compileAux]
  simp [groupOf, lookupKey]

/-- C9: when the compiled sheet-rule mapping is empty, `main` never starts
the spreadsheet application and never processes a file; if it got past the
earlier directory and file-listing checks it reports exactly the fatal
no-enabled-rules configuration error. -/
theorem c9_no_enabled_rules_aborts (folder_ok : Bool)
    (excel_files : List String) (search_rules_config : List RawRule)
    (h : build_sheet_rules search_rules_config = []) :
    MainEvent.excelStarted ∉ main_trace folder_ok excel_files search_rules_config ∧
    (∀ f, MainEvent.fileProcessed f ∉
      main_trace folder_ok excel_files search_rules_config) ∧
    (folder_ok = true → excel_files ≠ [] →
      main_trace folder_ok excel_files search_rules_config =
        [MainEvent.fatalNoRules]) := by
  unfold main_trace
  rw [h]
  cases folder_ok
  · simp
  · by_cases hf : excel_files = [] <;> simp [hf]

/-- Witness for C9: a configuration holding one disabled rule compiles to
the empty mapping, and the run with one candidate file reports the fatal
error without starting Excel or processing the file. -/
theorem c9_no_enabled_rules_aborts_witness :
    MainEvent.excelStarted ∉ main_trace true ["book1.xlsx"] [disabledRawRule] ∧
    (∀ f, MainEvent.fileProcessed f ∉
      main_trace true ["book1.xlsx"] [disabledRawRule]) ∧
    (true = true → ["book1.xlsx"] ≠ ([] : List String) →
      main_trace true ["book1.xlsx"] [disabledRawRule] =
        [MainEvent.fatalNoRules]) :=
  c9_no_enabled_rules_aborts true ["book1.xlsx"] [disabledRawRule] (by decide)

end ExcelFindAndLog
